import Mathlib

/-!
# Verification of the ingredient-assistant client state machine and API routes

Shallow embedding of the TypeScript sources of the `encode1` repository:

* the analyze route (src/unnamed/part_004 and part_003): the
  uncertainty-keyword scan, the confidence formula and the `isUncertain` flag;
* `src/app/api/speak/route.ts`: the pass-through synthesis proxy;
* `src/app/dashboard/page.tsx` (and the page variants in src/unnamed/part_000
  and part_002, which add `handleCopilotClick` and the `laugh` state): the
  AI-state orchestration — `handleAnalyze`, `speakText`, `speakWithBrowserTTS`,
  `handleStartListening`, `handleStopListening`, the auto-reset timers and the
  10-second speaking safety net.

Numbers: the route computes `confidence` with JavaScript doubles.  We embed the
arithmetic over `ℚ` with the exact constants 15/100 and 7/10.  The only branch
point where rounding could matter is `uncertaintyCount = 2`, where the double
computation `1 - 2*0.15` rounds (half to even) to exactly the double nearest
0.7, so `confidence < 0.7` is false — the same outcome as in `ℚ`, where
`1 - 2*(15/100) = 7/10` exactly.  All comparisons in the sources therefore
decide identically over `ℚ` and over doubles.

Strings: JavaScript `text.toLowerCase()` is embedded as a character-wise
`Char.toLower` map, `hay.includes(needle)` as a contiguous-substring scan, and
the guard `!ingredients.trim()` as an all-whitespace test (a string trims to
the empty string exactly when every character is whitespace).

Asynchrony: the dashboard is single-threaded and callback-driven.  Each
`async` handler is split at its `await` points: the synchronous part of a
handler is one step of the machine, and each callback (fetch continuation,
audio `onended`/`onerror`, utterance `onend`/`onerror`, recognition events,
`setTimeout` firings) is a separate event.  Pending callbacks are tracked in
the state (`pendingAnalyses`, `pendingSpeaks`, `pendingAudios`,
`pendingUtters`, `timers`), and an event for a callback that is not pending is
a no-op (no such callback exists to run).  Each React `setAiState` call is
recorded in `stateLog`, so the order in which states are entered within one
handler is observable.  The 10-second `useEffect` safety net is the one timer
with cleanup semantics: `safetyNet` is armed exactly when the state changes to
`speaking` and cleared on every state change away, mirroring the effect with
dependency `[aiState]`.
-/

/-- State type from `types/aiState.ts` as used by the canonical
`config/copilotAnimations.ts` (seven states, including `laugh`; the stale
variant appended after the process-image route omits `laugh`). -/
inductive AIState where
  | idle
  | listening
  | thinking
  | speaking
  | unsure
  | warning
  | laugh
deriving DecidableEq, BEq, Repr

/-- Tests that `a` is an initial segment of `b` (helper for the substring
scan used to embed JavaScript `String.prototype.includes`). -/
def leadsList : List Char → List Char → Bool
  | [], _ => true
  | _ :: _, [] => false
  | a :: as, b :: bs => a == b && leadsList as bs

/-- Tests that `needle` occurs contiguously somewhere in the list. -/
def subIn (needle : List Char) : List Char → Bool
  | [] => leadsList needle []
  | b :: bs => leadsList needle (b :: bs) || subIn needle bs

/-- JavaScript `hay.includes(needle)`. -/
def containsSubstr (hay needle : String) : Bool :=
  subIn needle.data hay.data

/-- JavaScript `s.toLowerCase()` (character-wise lowering). -/
def toLowerStr (s : String) : String :=
  { data := s.data.map Char.toLower }

/-- JavaScript falsiness of `s.trim()`: the trimmed string is empty exactly
when every character of `s` is whitespace. -/
def isBlank (s : String) : Bool :=
  s.data.all Char.isWhitespace

/-- JavaScript `Math.max` on two exact rationals. -/
def ratMax (a b : ℚ) : ℚ := if a ≤ b then b else a

/-- Uncertainty lexicon of the analyze route (part_004 lines 170–185;
identical in part_003).  `"unclear"` appears twice, exactly as in the source
array. -/
def uncertaintyKeywords : List String :=
  [ "uncertain",
    "unclear",
    "not sure",
    "might",
    "possibly",
    "perhaps",
    "maybe",
    "could be",
    "unclear",
    "unknown",
    "hard to tell",
    "difficult to determine",
    "not certain",
    "ambiguous" ]

/-- Embeds `uncertaintyKeywords.filter((keyword) =>
lowerText.includes(keyword)).length` over `lowerText = text.toLowerCase()`. -/
def uncertaintyCount (text : String) : Nat :=
  (uncertaintyKeywords.filter (fun k => containsSubstr (toLowerStr text) k)).length

/-- Embeds `Math.max(0, 1 - uncertaintyCount * 0.15)` over exact rationals. -/
def confidence (text : String) : ℚ :=
  ratMax 0 (1 - (uncertaintyCount text : ℚ) * (15 / 100))

/-- Embeds `confidence < 0.7 || uncertaintyCount >= 3`. -/
def isUncertain (text : String) : Bool :=
  decide (confidence text < 7 / 10) || decide (3 ≤ uncertaintyCount text)

/-- JSON payload `{ text, confidence, isUncertain }` returned by the analyze
route and consumed by the dashboard. -/
structure AnalysisResp where
  text : String
  confidence : ℚ
  isUncertain : Bool
deriving DecidableEq, Repr

/-- Response of the analyze route, as a function of the text produced by the
upstream language-model call (its only non-deterministic input). -/
def analyzePOST (text : String) : AnalysisResp :=
  { text := text, confidence := confidence text, isUncertain := isUncertain text }

/-! ## The speak route (`src/app/api/speak/route.ts`) -/

/-- Response of the upstream synthesis service as the speak route sees it:
a status code and a body, read as raw bytes by `response.arrayBuffer()`. -/
structure UpstreamResponse where
  status : Nat
  body : List Nat
deriving DecidableEq, Repr

/-- HTTP response returned by a Next.js route handler to the browser. -/
structure RouteResponse where
  status : Nat
  contentType : String
  body : List Nat
deriving DecidableEq, Repr

/-- Embeds the speak route's `POST`: it forwards the upstream body bytes in a
fresh `NextResponse` whose only header is `Content-Type: audio/mpeg` and whose
status is the `NextResponse` default 200 — regardless of the upstream
status or body. -/
def speakPOST (upstream : UpstreamResponse) : RouteResponse :=
  { status := 200, contentType := "audio/mpeg", body := upstream.body }

/-- Embeds the fetch-API `res.ok` flag tested by `speakText`. -/
def resOk (r : RouteResponse) : Bool :=
  decide (200 ≤ r.status) && decide (r.status < 300)

/-! ## The dashboard state machine (`src/app/dashboard/page.tsx` and the
variants in part_000 / part_002) -/

/-- Observable actions on the speech-recognition engine and the microphone
stream, logged in order (`stream.getTracks().forEach(track => track.stop())`,
`recognition.start()`, `recognition.stop()`). -/
inductive RecAction where
  | stopTracks
  | recogStart
  | recogStop
deriving DecidableEq, Repr

/-- Outcome of the `fetch("/api/speak")` continuation of `speakText`, after
the response checks the client performs, in source order: `!res.ok` with the
parsed JSON error body, a non-audio content type, an empty audio blob, a
playable audio blob, or a thrown network error. -/
inductive SpeakOutcome where
  | httpFail (useBrowserTTS : Bool) (errMsg : Option String) (status : Nat)
  | notAudio
  | emptyBlob
  | audioReady
  | netFail
deriving DecidableEq, Repr

/-- Outcome of the `getUserMedia({ audio: true })` permission probe in
`handleStartListening`: granted (with an optional error `(name, message)`
thrown by `recognition.start()`), or denied with the error's name and
message. -/
inductive MicProbe where
  | granted (startErr : Option (String × String))
  | denied (name : String) (msg : String)
deriving DecidableEq, Repr

/-- Dashboard component state: the React `useState` cells of the page plus
the bookkeeping of pending callbacks described in the module docstring. -/
structure Dash where
  aiState : AIState
  stateLog : List AIState
  safetyNet : Bool
  ingredients : String
  analyzing : Bool
  listening : Bool
  analysisResult : Option String
  analysisError : String
  micError : Option String
  timers : List Nat
  nextAnalysisId : Nat
  pendingAnalyses : List Nat
  nextSpeakId : Nat
  pendingSpeaks : List (Nat × String)
  nextAudioId : Nat
  pendingAudios : List Nat
  nextUtterId : Nat
  pendingUtters : List Nat
  browserTTSCalls : List String
  recActions : List RecAction
  recognitionInit : Bool
  synthSupported : Bool
deriving DecidableEq, Repr

/-- Embeds a `setAiState(v)` call: records the call in the log and maintains
the 10-second speaking safety net of the `useEffect` with dependency
`[aiState]` — on a state change the previous timer is cleaned up and a new
one is scheduled exactly when the new state is `speaking`; if the value is
unchanged React bails out and the effect does not re-run. -/
def setA (v : AIState) (s : Dash) : Dash :=
  { s with aiState := v,
           stateLog := s.stateLog ++ [v],
           safetyNet := if v = s.aiState then s.safetyNet
                        else decide (v = AIState.speaking) }

/-- JavaScript truthiness of a number (`NaN` aside): nonzero. -/
def numTruthy (q : ℚ) : Bool := decide (q ≠ 0)

/-- JavaScript `a || b` where `a` may be a missing or empty string. -/
def jsOrElse : Option String → String → String
  | some m, d => if m = "" then d else m
  | none, d => d

/-- Embeds `speakText` up to its first `await`: it sets `speaking` and issues
the `/api/speak` request, whose continuation is a later `speakFetch` event. -/
def speakText (t : String) (s : Dash) : Dash :=
  let s2 := setA .speaking s
  { s2 with pendingSpeaks := s2.pendingSpeaks ++ [(s2.nextSpeakId, t)],
            nextSpeakId := s2.nextSpeakId + 1 }

/-- Embeds `speakWithBrowserTTS`: without `speechSynthesis` support it sets an
error and returns to idle; otherwise it sets `speaking`, cancels any ongoing
utterances and starts a new utterance for `t`. -/
def speakWithBrowserTTS (t : String) (s : Dash) : Dash :=
  if s.synthSupported then
    let s2 := setA .speaking s
    { s2 with pendingUtters := [s2.nextUtterId],
              nextUtterId := s2.nextUtterId + 1,
              browserTTSCalls := s2.browserTTSCalls ++ [t] }
  else
    setA .idle { s with analysisError := "Your browser doesn\u0027t support speech synthesis. Please use Chrome, Edge, or Safari." }

/-- Error message of the non-fallback `!res.ok` branch of `speakText`:
`errorData.error || (res.status === 401 ? ... : ...)`. -/
def speakDefaultErr (status : Nat) : String :=
  if status = 401 then "Text-to-speech API key not configured. Please add ELEVENLABS_API_KEY to .env.local"
  else "Failed to generate speech. Please try again."

/-- Embeds the continuation of `speakText` after `await fetch`, branching as
the source does; `t` is the text the request was issued for. -/
def handleSpeakFetch (t : String) (o : SpeakOutcome) (s : Dash) : Dash :=
  match o with
  | .httpFail useB err status =>
      if useB then
        speakWithBrowserTTS t s
      else
        setA .idle { s with analysisError := jsOrElse err (speakDefaultErr status) }
  | .notAudio =>
      setA .idle { s with analysisError := "Invalid audio response. Please check your API configuration." }
  | .emptyBlob =>
      setA .idle { s with analysisError := "Empty audio response. Please try again." }
  | .audioReady =>
      { s with pendingAudios := s.pendingAudios ++ [s.nextAudioId],
               nextAudioId := s.nextAudioId + 1 }
  | .netFail =>
      setA .idle { s with analysisError := "Failed to generate speech. Please check your internet connection and try again." }

/-- Error message of the `audio.onerror` handler, by MediaError code. -/
def audioErrMsg (code : Option Nat) (msg : String) : String :=
  match code with
  | none => "Failed to play audio."
  | some 1 => "Audio playback was aborted."
  | some 2 => "Network error while loading audio."
  | some 3 => "Audio format not supported or corrupted. The API may have returned invalid audio data. Please check your ElevenLabs API key."
  | some 4 => "Audio format not supported by your browser. The API may have returned an invalid format. Please check your ElevenLabs API configuration."
  | some c => "Audio playback error (code " ++ toString c ++ "): " ++ (if msg = "" then "Unknown error" else msg) ++ ". Please check your ElevenLabs API key in .env.local"

/-- Embeds `handleAnalyze` up to its first `await`: the empty-input guard
(warning, message, 3-second auto-reset) or the start of an analysis request
whose continuation is a later `analysisOk`/`analysisFail` event. -/
def handleAnalyze (s : Dash) : Dash :=
  if isBlank s.ingredients then
    let s2 := setA .warning { s with analysisError := "Please enter ingredients to analyze" }
    { s2 with timers := s2.timers ++ [3000] }
  else
    let s2 := setA .thinking s
    { s2 with analyzing := true, analysisError := "", analysisResult := none,
              pendingAnalyses := s2.pendingAnalyses ++ [s2.nextAnalysisId],
              nextAnalysisId := s2.nextAnalysisId + 1 }

/-- Embeds the `response.ok` continuation of `handleAnalyze`: stores the
result, then branches on `data.isUncertain || (data.confidence &&
data.confidence < 0.7)` and on `data.text` exactly as the source does. -/
def handleAnalysisOk (r : AnalysisResp) (s : Dash) : Dash :=
  let s2 := { s with analysisResult := some r.text, analyzing := false }
  if r.isUncertain || (numTruthy r.confidence && decide (r.confidence < 7 / 10)) then
    let s3 := setA .unsure s2
    if r.text != "" then speakText r.text s3 else setA .idle s3
  else
    if r.text != "" then speakText r.text s2 else setA .idle s2

/-- Embeds the `!response.ok` branch and the `catch` branch of
`handleAnalyze` (identical effects): error message, warning, 5-second
auto-reset. -/
def handleAnalysisFail (s : Dash) : Dash :=
  let s2 := setA .warning { s with analysisError := "Something went wrong. Please try again.", analyzing := false }
  { s2 with timers := s2.timers ++ [5000] }

/-- Classification of a rejected `getUserMedia` probe into the user-facing
message, by the error's `name` with the error's `message` as fallback. -/
def classifyMicDenied (name msg : String) : String :=
  if name = "NotAllowedError" || name = "PermissionDeniedError" then
    "Microphone permission denied. Please allow microphone access in your browser settings and try again."
  else if name = "NotFoundError" || name = "DevicesNotFoundError" then
    "No microphone found. Please connect a microphone and try again."
  else if name = "NotReadableError" || name = "TrackStartError" then
    "Microphone is being used by another application. Please close other apps using the microphone."
  else if msg != "" then msg
  else "Microphone access denied."

/-- Embeds `handleStopListening`: with an initialized engine and an active
session, stop and abort the engine, clear the flag and the error, return to
idle; otherwise do nothing. -/
def handleStopListening (s : Dash) : Dash :=
  if s.recognitionInit && s.listening then
    setA .idle { s with recActions := s.recActions ++ [.recogStop],
                        listening := false, micError := none }
  else s

/-- Embeds `handleStartListening` with the probe outcome inlined: the
missing-engine guard, the already-listening guard (which stops instead), the
granted path (stop the permission stream's tracks, then start recognition,
clear the error, set `listening`), the granted-but-start-threw path, and the
denied path (classified message, no recognition start, idle). -/
def handleStartListening (p : MicProbe) (s : Dash) : Dash :=
  if !s.recognitionInit then
    { s with micError := some "Speech recognition not initialized. Please refresh the page." }
  else if s.listening then
    handleStopListening s
  else
    match p with
    | .granted none =>
        setA .listening { s with recActions := s.recActions ++ [.stopTracks, .recogStart],
                                 micError := none }
    | .granted (some (name, msg)) =>
        setA .idle { s with recActions := s.recActions ++ [.stopTracks],
                            micError := some (if name = "InvalidStateError" then "Speech recognition is already running. Please wait."
                                              else if msg != "" then msg
                                              else "Failed to start speech recognition."),
                            listening := false }
    | .denied name msg =>
        setA .idle { s with micError := some (classifyMicDenied name msg),
                            listening := false }

/-- Events delivered to the single-threaded event loop of the dashboard. -/
inductive Ev where
  | setInput (t : String)
  | typingPause
  | analyzeClick
  | analysisOk (i : Nat) (r : AnalysisResp)
  | analysisFail (i : Nat)
  | speakFetch (i : Nat) (o : SpeakOutcome)
  | audioEnded (i : Nat)
  | audioFailed (i : Nat) (code : Option Nat) (msg : String)
  | utterEnded (i : Nat)
  | utterFailed (i : Nat)
  | startListening (p : MicProbe)
  | stopListening
  | recogStarted
  | recogResult (t : String)
  | recogEnded
  | copilotClick
  | fireTimer (i : Nat)
  | fireSafetyNet

/-- One step of the dashboard machine.  Completion events whose operation is
not pending are no-ops (no such callback exists); note that no handler
consults whether its operation is the most recently started one. -/
def dashStep (s : Dash) : Ev → Dash
  | .setInput t =>
      let s2 := { s with ingredients := t }
      if isBlank t && (s2.aiState == AIState.listening) && !s2.analyzing then
        setA .idle s2
      else s2
  | .typingPause =>
      if !(isBlank s.ingredients) && !s.analyzing && !s.listening then
        setA .listening s
      else s
  | .analyzeClick => handleAnalyze s
  | .analysisOk i r =>
      if i ∈ s.pendingAnalyses then
        handleAnalysisOk r { s with pendingAnalyses := s.pendingAnalyses.erase i }
      else s
  | .analysisFail i =>
      if i ∈ s.pendingAnalyses then
        handleAnalysisFail { s with pendingAnalyses := s.pendingAnalyses.erase i }
      else s
  | .speakFetch i o =>
      match s.pendingSpeaks.lookup i with
      | some t => handleSpeakFetch t o { s with pendingSpeaks := s.pendingSpeaks.filter (fun p => p.1 != i) }
      | none => s
  | .audioEnded i =>
      if i ∈ s.pendingAudios then
        setA .idle { s with pendingAudios := s.pendingAudios.erase i }
      else s
  | .audioFailed i code msg =>
      if i ∈ s.pendingAudios then
        setA .idle { s with pendingAudios := s.pendingAudios.erase i,
                            analysisError := audioErrMsg code msg }
      else s
  | .utterEnded i =>
      if i ∈ s.pendingUtters then
        setA .idle { s with pendingUtters := s.pendingUtters.erase i }
      else s
  | .utterFailed i =>
      if i ∈ s.pendingUtters then
        setA .idle { s with pendingUtters := s.pendingUtters.erase i,
                            analysisError := "Failed to speak text. Please try again." }
      else s
  | .startListening p => handleStartListening p s
  | .stopListening => handleStopListening s
  | .recogStarted => setA .listening { s with micError := none, listening := true }
  | .recogResult t =>
      setA .idle { s with ingredients := s.ingredients ++ (if s.ingredients = "" then "" else " ") ++ t,
                          listening := false, micError := none }
  | .recogEnded => setA .idle { s with listening := false }
  | .copilotClick =>
      let s2 := setA .laugh s
      { s2 with timers := s2.timers ++ [3000] }
  | .fireTimer i =>
      if i < s.timers.length then
        setA .idle { s with timers := s.timers.eraseIdx i }
      else s
  | .fireSafetyNet =>
      if s.safetyNet then setA .idle s else s

/-- Initial component state on page load, parameterized by the two
capability probes of the mount effect. -/
def dashInit (recognitionInit synthSupported : Bool) : Dash :=
  { aiState := .idle, stateLog := [], safetyNet := false, ingredients := "",
    analyzing := false, listening := false, analysisResult := none,
    analysisError := "", micError := none, timers := [], nextAnalysisId := 0,
    pendingAnalyses := [], nextSpeakId := 0, pendingSpeaks := [],
    nextAudioId := 0, pendingAudios := [], nextUtterId := 0,
    pendingUtters := [], browserTTSCalls := [], recActions := [],
    recognitionInit := recognitionInit, synthSupported := synthSupported }

/-- Client-side classification of a `/api/speak` response by `speakText`'s
checks, in source order: non-OK status, non-audio content type, empty blob,
playable audio.  The error-body fields of the non-OK branch are left at
placeholder values because the parse is driven by JSON data this
classification does not inspect; for responses of `speakPOST` the branch is
never reached. -/
def classifySpeakResponse (r : RouteResponse) : SpeakOutcome :=
  if !(resOk r) then .httpFail false none r.status
  else if !(containsSubstr r.contentType "audio") then .notAudio
  else if r.body = [] then .emptyBlob
  else .audioReady

/-- Safety-net invariant: the 10-second auto-reset timer is armed only while
the state is `speaking`, i.e. only while the state it was scheduled against
is still current. -/
def SafetyInv (s : Dash) : Prop :=
  s.safetyNet = true → s.aiState = AIState.speaking

theorem ratMax_eq_max (a b : ℚ) : ratMax a b = max a b := by
  unfold ratMax
  split_ifs with h
  · exact (max_eq_right h).symm
  · exact (max_eq_left (le_of_not_le h)).symm

/-- Threshold lemma: `confidence text < 0.7` holds exactly when the keyword
count is at least 3 — the branch threshold of both the route and the client. -/
theorem confidence_lt_iff (text : String) :
    confidence text < 7 / 10 ↔ 3 ≤ uncertaintyCount text := by
  unfold confidence
  rw [ratMax_eq_max]
  constructor
  · intro h
    by_contra hk
    push_neg at hk
    have hk2 : uncertaintyCount text ≤ 2 := Nat.lt_succ_iff.mp hk
    have hc : ((uncertaintyCount text : ℚ)) ≤ 2 := by exact_mod_cast hk2
    have hx : (7 : ℚ) / 10 ≤ 1 - (uncertaintyCount text : ℚ) * (15 / 100) := by
      nlinarith
    have := le_max_right (0 : ℚ) (1 - (uncertaintyCount text : ℚ) * (15 / 100))
    linarith
  · intro h
    have hc : (3 : ℚ) ≤ (uncertaintyCount text : ℚ) := by exact_mod_cast h
    have hx : 1 - (uncertaintyCount text : ℚ) * (15 / 100) ≤ 11 / 20 := by
      nlinarith
    have h0 : (0 : ℚ) < 7 / 10 := by norm_num
    exact max_lt h0 (by linarith)


theorem setA_safetyInv (v : AIState) (s : Dash) (h : SafetyInv s) :
    SafetyInv (setA v s) := by
  unfold SafetyInv setA
  dsimp only
  split_ifs with hv
  · intro hs
    rw [hv]
    exact h hs
  · intro hs
    exact of_decide_eq_true hs

theorem speakText_safetyInv (t : String) (s : Dash) (h : SafetyInv s) :
    SafetyInv (speakText t s) :=
  setA_safetyInv AIState.speaking s h

theorem speakWithBrowserTTS_safetyInv (t : String) (s : Dash) (h : SafetyInv s) :
    SafetyInv (speakWithBrowserTTS t s) := by
  unfold speakWithBrowserTTS
  split_ifs with hs
  · exact setA_safetyInv AIState.speaking s h
  · exact setA_safetyInv AIState.idle _ h

theorem handleSpeakFetch_safetyInv (t : String) (o : SpeakOutcome) (s : Dash)
    (h : SafetyInv s) : SafetyInv (handleSpeakFetch t o s) := by
  cases o with
  | httpFail useB err status =>
      unfold handleSpeakFetch
      dsimp only
      split_ifs with hb
      · exact speakWithBrowserTTS_safetyInv t s h
      · exact setA_safetyInv AIState.idle _ h
  | notAudio => exact setA_safetyInv AIState.idle _ h
  | emptyBlob => exact setA_safetyInv AIState.idle _ h
  | audioReady => exact h
  | netFail => exact setA_safetyInv AIState.idle _ h

theorem handleAnalyze_safetyInv (s : Dash) (h : SafetyInv s) :
    SafetyInv (handleAnalyze s) := by
  unfold handleAnalyze
  split_ifs with hb
  · exact setA_safetyInv AIState.warning _ h
  · exact setA_safetyInv AIState.thinking s h

theorem handleAnalysisOk_safetyInv (r : AnalysisResp) (s : Dash) (h : SafetyInv s) :
    SafetyInv (handleAnalysisOk r s) := by
  unfold handleAnalysisOk
  split_ifs with hc ht ht
  · exact speakText_safetyInv r.text _ (setA_safetyInv AIState.unsure _ h)
  · exact setA_safetyInv AIState.idle _ (setA_safetyInv AIState.unsure _ h)
  · exact speakText_safetyInv r.text _ h
  · exact setA_safetyInv AIState.idle _ h

theorem handleAnalysisFail_safetyInv (s : Dash) (h : SafetyInv s) :
    SafetyInv (handleAnalysisFail s) :=
  setA_safetyInv AIState.warning _ h

theorem handleStopListening_safetyInv (s : Dash) (h : SafetyInv s) :
    SafetyInv (handleStopListening s) := by
  unfold handleStopListening
  split_ifs with hb
  · exact setA_safetyInv AIState.idle _ h
  · exact h

theorem handleStartListening_safetyInv (p : MicProbe) (s : Dash) (h : SafetyInv s) :
    SafetyInv (handleStartListening p s) := by
  unfold handleStartListening
  split_ifs with h1 h2
  · exact h
  · exact handleStopListening_safetyInv s h
  · cases p with
    | granted startErr =>
        cases startErr with
        | none => exact setA_safetyInv AIState.listening _ h
        | some nm =>
            cases nm with
            | mk name msg => exact setA_safetyInv AIState.idle _ h
    | denied name msg => exact setA_safetyInv AIState.idle _ h

theorem dashStep_safetyInv (s : Dash) (e : Ev) (h : SafetyInv s) :
    SafetyInv (dashStep s e) := by
  cases e with
  | setInput t =>
      simp only [dashStep]
      split_ifs with hc
      · exact setA_safetyInv AIState.idle _ h
      · exact h
  | typingPause =>
      simp only [dashStep]
      split_ifs with hc
      · exact setA_safetyInv AIState.listening _ h
      · exact h
  | analyzeClick => exact handleAnalyze_safetyInv s h
  | analysisOk i r =>
      simp only [dashStep]
      split_ifs with hm
      · exact handleAnalysisOk_safetyInv r _ h
      · exact h
  | analysisFail i =>
      simp only [dashStep]
      split_ifs with hm
      · exact handleAnalysisFail_safetyInv _ h
      · exact h
  | speakFetch i o =>
      simp only [dashStep]
      cases hl : s.pendingSpeaks.lookup i with
      | some t => exact handleSpeakFetch_safetyInv t o _ h
      | none => exact h
  | audioEnded i =>
      simp only [dashStep]
      split_ifs with hm
      · exact setA_safetyInv AIState.idle _ h
      · exact h
  | audioFailed i code msg =>
      simp only [dashStep]
      split_ifs with hm
      · exact setA_safetyInv AIState.idle _ h
      · exact h
  | utterEnded i =>
      simp only [dashStep]
      split_ifs with hm
      · exact setA_safetyInv AIState.idle _ h
      · exact h
  | utterFailed i =>
      simp only [dashStep]
      split_ifs with hm
      · exact setA_safetyInv AIState.idle _ h
      · exact h
  | startListening p => exact handleStartListening_safetyInv p s h
  | stopListening => exact handleStopListening_safetyInv s h
  | recogStarted => exact setA_safetyInv AIState.listening _ h
  | recogResult t => exact setA_safetyInv AIState.idle _ h
  | recogEnded => exact setA_safetyInv AIState.idle _ h
  | copilotClick => exact setA_safetyInv AIState.laugh _ h
  | fireTimer i =>
      simp only [dashStep]
      split_ifs with hm
      · exact setA_safetyInv AIState.idle _ h
      · exact h
  | fireSafetyNet =>
      simp only [dashStep]
      split_ifs with hm
      · exact setA_safetyInv AIState.idle _ h
      · exact h

/-! ## Claim theorems -/

/-- C2: for all sequences of events, `AssistantState` is always exactly one
of the seven enumerated values `idle, listening, thinking, speaking, unsure,
warning, laugh`; it is initialized to `idle` on page load and every
transition assigns one of these seven values. -/
theorem aiState_always_one_of_seven :
    (∀ recog synth : Bool, (dashInit recog synth).aiState = AIState.idle) ∧
    (∀ (s : Dash) (e : Ev),
      (dashStep s e).aiState = AIState.idle ∨
      (dashStep s e).aiState = AIState.listening ∨
      (dashStep s e).aiState = AIState.thinking ∨
      (dashStep s e).aiState = AIState.speaking ∨
      (dashStep s e).aiState = AIState.unsure ∨
      (dashStep s e).aiState = AIState.warning ∨
      (dashStep s e).aiState = AIState.laugh) := by
  refine ⟨fun recog synth => rfl, fun s e => ?_⟩
  cases h : (dashStep s e).aiState <;> simp

/-- C8: for every response text produced by the analysis endpoint, the
returned confidence lies in `[0,1]`: it is computed as
`max(0, 1 − 0.15 × uncertaintyCount)`, never negative and never above 1. -/
theorem confidence_within_unit_interval :
    ∀ text : String,
      0 ≤ (analyzePOST text).confidence ∧
      (analyzePOST text).confidence ≤ 1 ∧
      (analyzePOST text).confidence
        = max 0 (1 - (uncertaintyCount text : ℚ) * (15 / 100)) := by
  intro text
  have hmax : (analyzePOST text).confidence
      = max 0 (1 - (uncertaintyCount text : ℚ) * (15 / 100)) := by
    show confidence text = _
    unfold confidence
    exact ratMax_eq_max _ _
  refine ⟨?_, ?_, hmax⟩
  · rw [hmax]
    exact le_max_left _ _
  · rw [hmax]
    apply max_le (by norm_num)
    have hk : (0 : ℚ) ≤ (uncertaintyCount text : ℚ) * (15 / 100) := by positivity
    linarith

/-- C9: the speak route always responds with status 200 and Content-Type
`audio/mpeg`, forwarding the upstream body bytes unchanged, even when the
upstream request failed or returned a JSON error body; it never returns a
non-2xx status and never emits the `useBrowserTTS` flag, so the client's
remote-failure and browser-fallback branches are unreachable via this
route. -/
theorem speak_route_always_ok_audio :
    ∀ upstream : UpstreamResponse,
      (speakPOST upstream).status = 200 ∧
      (speakPOST upstream).contentType = "audio/mpeg" ∧
      (speakPOST upstream).body = upstream.body ∧
      resOk (speakPOST upstream) = true ∧
      (∀ (b : Bool) (m : Option String) (st : Nat),
        classifySpeakResponse (speakPOST upstream) ≠ SpeakOutcome.httpFail b m st) ∧
      classifySpeakResponse (speakPOST upstream)
        = (if upstream.body = [] then SpeakOutcome.emptyBlob else SpeakOutcome.audioReady) := by
  intro upstream
  have hok : resOk (speakPOST upstream) = true := by rfl
  have hct : containsSubstr (speakPOST upstream).contentType "audio" = true := by rfl
  have hcl : classifySpeakResponse (speakPOST upstream)
      = (if upstream.body = [] then SpeakOutcome.emptyBlob else SpeakOutcome.audioReady) := by
    unfold classifySpeakResponse
    rw [hok, hct]
    simp [speakPOST]
  refine ⟨rfl, rfl, rfl, hok, ?_, hcl⟩
  intro b m st
  rw [hcl]
  split_ifs <;> simp

/-- C10: the analysis endpoint's `isUncertain` flag is true iff the
uncertainty-keyword count over the lowercased text is at least 3, where the
count tallies lexicon entries (`"unclear"` appears twice in the lexicon, so a
text containing `"unclear"` contributes 2); the disjunct `confidence < 0.7`
is redundant, holding exactly when the count is at least 3. -/
theorem isUncertain_iff_three_keywords :
    ∀ text : String,
      ((analyzePOST text).isUncertain = true ↔ 3 ≤ uncertaintyCount text) ∧
      ((analyzePOST text).confidence < 7 / 10 ↔ 3 ≤ uncertaintyCount text) ∧
      uncertaintyKeywords.count "unclear" = 2 ∧
      uncertaintyCount "unclear" = 2 := by
  intro text
  refine ⟨?_, confidence_lt_iff text, by decide, by decide⟩
  show isUncertain text = true ↔ _
  unfold isUncertain
  simp only [Bool.or_eq_true, decide_eq_true_eq, confidence_lt_iff, or_self]
/-- C5: submitting empty (or whitespace-only) input never starts an analysis
request; it sets `warning` with the message "Please enter ingredients to
analyze" and, absent further events, firing the single 3000 ms timer it
schedules returns the machine to `idle`. -/
theorem empty_submission_warns_without_request :
    ∀ s : Dash, isBlank s.ingredients = true →
      (dashStep s Ev.analyzeClick).pendingAnalyses = s.pendingAnalyses ∧
      (dashStep s Ev.analyzeClick).nextAnalysisId = s.nextAnalysisId ∧
      (dashStep s Ev.analyzeClick).analyzing = s.analyzing ∧
      (dashStep s Ev.analyzeClick).aiState = AIState.warning ∧
      (dashStep s Ev.analyzeClick).analysisError = "Please enter ingredients to analyze" ∧
      (dashStep s Ev.analyzeClick).timers = s.timers ++ [3000] ∧
      (dashStep (dashStep s Ev.analyzeClick) (Ev.fireTimer s.timers.length)).aiState
        = AIState.idle := by
  intro s hb
  have hstep : dashStep s Ev.analyzeClick
      = { setA AIState.warning { s with analysisError := "Please enter ingredients to analyze" }
            with timers := s.timers ++ [3000] } := by
    simp only [dashStep, handleAnalyze, hb, if_true]
    rfl
  rw [hstep]
  have hlen : s.timers.length < (s.timers ++ [3000]).length := by simp
  refine ⟨rfl, rfl, rfl, rfl, rfl, rfl, ?_⟩
  simp only [dashStep]
  rw [if_pos hlen]
  rfl

/-- C7: starting voice capture first performs a microphone permission probe
and stops the acquired stream's tracks before recognition begins; if the
probe is denied, no recognition start is issued, a classified non-empty
user-facing error message is set, and `AssistantState` is `idle`. -/
theorem mic_probe_release_order_and_denial :
    (∀ s : Dash, s.recognitionInit = true → s.listening = false →
      (dashStep s (Ev.startListening (MicProbe.granted none))).recActions
          = s.recActions ++ [RecAction.stopTracks, RecAction.recogStart] ∧
      (dashStep s (Ev.startListening (MicProbe.granted none))).aiState
          = AIState.listening) ∧
    (∀ (s : Dash) (nm ms : String), s.recognitionInit = true → s.listening = false →
      (dashStep s (Ev.startListening (MicProbe.denied nm ms))).recActions = s.recActions ∧
      (dashStep s (Ev.startListening (MicProbe.denied nm ms))).micError
          = some (classifyMicDenied nm ms) ∧
      classifyMicDenied nm ms ≠ "" ∧
      (dashStep s (Ev.startListening (MicProbe.denied nm ms))).aiState = AIState.idle) := by
  constructor
  · intro s h1 h2
    have hstep : dashStep s (Ev.startListening (MicProbe.granted none))
        = setA AIState.listening
            { s with recActions := s.recActions ++ [RecAction.stopTracks, RecAction.recogStart],
                     micError := none } := by
      simp only [dashStep, handleStartListening, h1, h2, Bool.not_true]
      rfl
    rw [hstep]
    exact ⟨rfl, rfl⟩
  · intro s nm ms h1 h2
    have hstep : dashStep s (Ev.startListening (MicProbe.denied nm ms))
        = setA AIState.idle
            { s with micError := some (classifyMicDenied nm ms), listening := false } := by
      simp only [dashStep, handleStartListening, h1, h2, Bool.not_true]
      rfl
    rw [hstep]
    refine ⟨rfl, rfl, ?_, rfl⟩
    unfold classifyMicDenied
    split_ifs with hc1 hc2 hc3 hc4
    · intro h
      simp at h
    · intro h
      simp at h
    · intro h
      simp at h
    · intro h
      rw [h] at hc4
      simp at hc4
    · intro h
      simp at h

/-- Helper: a pending utterance's `onend` returns the machine to idle and
leaves the analysis error untouched. -/
theorem utterEnded_step (s : Dash) (i : Nat) (h : i ∈ s.pendingUtters) :
    (dashStep s (Ev.utterEnded i)).aiState = AIState.idle ∧
    (dashStep s (Ev.utterEnded i)).analysisError = s.analysisError := by
  simp only [dashStep]
  rw [if_pos h]
  exact ⟨rfl, rfl⟩

/-- C6: when the remote synthesis request returns a fallback-required signal
(a non-OK response whose JSON body carries `useBrowserTTS`), local browser
synthesis is invoked for the same text, no error message is set by the
fallback itself, and the machine reaches `idle` when the local utterance
completes. -/
theorem fallback_signal_invokes_local_tts_silently :
    ∀ (s : Dash) (i : Nat) (t : String) (m : Option String) (st : Nat),
      s.pendingSpeaks.lookup i = some t → s.synthSupported = true →
      (dashStep s (Ev.speakFetch i (SpeakOutcome.httpFail true m st))).browserTTSCalls
          = s.browserTTSCalls ++ [t] ∧
      (dashStep s (Ev.speakFetch i (SpeakOutcome.httpFail true m st))).analysisError
          = s.analysisError ∧
      (dashStep s (Ev.speakFetch i (SpeakOutcome.httpFail true m st))).aiState
          = AIState.speaking ∧
      (dashStep s (Ev.speakFetch i (SpeakOutcome.httpFail true m st))).pendingUtters
          = [s.nextUtterId] ∧
      (dashStep (dashStep s (Ev.speakFetch i (SpeakOutcome.httpFail true m st)))
          (Ev.utterEnded s.nextUtterId)).aiState = AIState.idle ∧
      (dashStep (dashStep s (Ev.speakFetch i (SpeakOutcome.httpFail true m st)))
          (Ev.utterEnded s.nextUtterId)).analysisError = s.analysisError := by
  intro s i t m st hl hsynth
  have hstep : dashStep s (Ev.speakFetch i (SpeakOutcome.httpFail true m st))
      = { setA AIState.speaking { s with pendingSpeaks := s.pendingSpeaks.filter (fun p => p.1 != i) } with
            pendingUtters := [s.nextUtterId], nextUtterId := s.nextUtterId + 1,
            browserTTSCalls := s.browserTTSCalls ++ [t] } := by
    simp only [dashStep, hl, handleSpeakFetch, speakWithBrowserTTS, hsynth]
    rfl
  rw [hstep]
  have hmem := utterEnded_step
      { setA AIState.speaking { s with pendingSpeaks := s.pendingSpeaks.filter (fun p => p.1 != i) } with
          pendingUtters := [s.nextUtterId], nextUtterId := s.nextUtterId + 1,
          browserTTSCalls := s.browserTTSCalls ++ [t] }
      s.nextUtterId (List.mem_singleton.mpr rfl)
  exact ⟨rfl, rfl, rfl, rfl, hmem.1, hmem.2⟩

/-- Helper: a confident response with non-empty text takes the plain
`speakText` branch of the analysis continuation. -/
theorem handleAnalysisOk_confident (r : AnalysisResp) (s : Dash)
    (hu : r.isUncertain = false) (hge : 7 / 10 ≤ r.confidence) (ht : r.text ≠ "") :
    handleAnalysisOk r s
      = speakText r.text { s with analysisResult := some r.text, analyzing := false } := by
  unfold handleAnalysisOk
  have hlt : decide (r.confidence < 7 / 10) = false := decide_eq_false (not_lt.mpr hge)
  have htx : (r.text != "") = true := bne_iff_ne.mpr ht
  rw [hu, hlt]
  simp only [Bool.and_false, Bool.false_or, Bool.false_eq_true, if_false, htx, if_true]

/-- Helper: whenever the uncertainty condition of the analysis continuation
holds, the first state entered is `unsure`. -/
theorem handleAnalysisOk_log_uncertain (r : AnalysisResp) (s : Dash)
    (hcond : (r.isUncertain || (numTruthy r.confidence && decide (r.confidence < 7 / 10))) = true) :
    ∃ rest, (handleAnalysisOk r s).stateLog = s.stateLog ++ (AIState.unsure :: rest) := by
  unfold handleAnalysisOk
  rw [hcond]
  simp only [if_true]
  by_cases ht : (r.text != "") = true
  · rw [if_pos ht]
    exact ⟨[AIState.speaking], by simp [speakText, setA]⟩
  · rw [if_neg ht]
    exact ⟨[AIState.idle], by simp [setA]⟩

/-- C1 (amended): the dashboard keeps no per-operation tokens, so a
completion callback applies its state transition whether or not its
operation is the most recently started of its kind: any pending playback's
`onended` resets the state to `idle`, and any pending analysis response
applies its branch (here: the confident branch entering `speaking`),
regardless of which pending operation it belongs to. -/
theorem completions_applied_without_staleness_check :
    (∀ (s : Dash) (i : Nat), i ∈ s.pendingAudios →
        (dashStep s (Ev.audioEnded i)).aiState = AIState.idle) ∧
    (∀ (s : Dash) (i : Nat) (r : AnalysisResp), i ∈ s.pendingAnalyses →
        r.isUncertain = false → 7 / 10 ≤ r.confidence → r.text ≠ "" →
        (dashStep s (Ev.analysisOk i r)).aiState = AIState.speaking) := by
  constructor
  · intro s i h
    simp only [dashStep]
    rw [if_pos h]
    rfl
  · intro s i r hm hu hge ht
    simp only [dashStep]
    rw [if_pos hm, handleAnalysisOk_confident r _ hu hge ht]
    rfl

/-- C4: for an analysis response of the analyze route that is uncertain or
has confidence below 0.7, the machine enters `unsure` (not `speaking`)
before attempting speech output; for a response with confidence at least
0.7, `isUncertain` false and non-empty text it enters `speaking` and invokes
speech output; and any response with confidence exactly 0.5 enters `unsure`
first. -/
theorem uncertain_response_enters_unsure_first :
    (∀ (s : Dash) (i : Nat) (t0 : String), i ∈ s.pendingAnalyses →
        ((analyzePOST t0).isUncertain = true ∨ (analyzePOST t0).confidence < 7 / 10) →
        ∃ rest, (dashStep s (Ev.analysisOk i (analyzePOST t0))).stateLog
                  = s.stateLog ++ (AIState.unsure :: rest)) ∧
    (∀ (s : Dash) (i : Nat) (r : AnalysisResp), i ∈ s.pendingAnalyses →
        r.isUncertain = false → 7 / 10 ≤ r.confidence → r.text ≠ "" →
        (dashStep s (Ev.analysisOk i r)).stateLog = s.stateLog ++ [AIState.speaking] ∧
        (dashStep s (Ev.analysisOk i r)).aiState = AIState.speaking ∧
        (dashStep s (Ev.analysisOk i r)).pendingSpeaks
          = s.pendingSpeaks ++ [(s.nextSpeakId, r.text)]) ∧
    (∀ (s : Dash) (i : Nat) (r : AnalysisResp), i ∈ s.pendingAnalyses →
        r.confidence = 1 / 2 →
        ∃ rest, (dashStep s (Ev.analysisOk i r)).stateLog
                  = s.stateLog ++ (AIState.unsure :: rest)) := by
  refine ⟨?_, ?_, ?_⟩
  · intro s i t0 hm hor
    have hu : (analyzePOST t0).isUncertain = true := by
      rcases hor with h | h
      · exact h
      · show isUncertain t0 = true
        unfold isUncertain
        have hd : confidence t0 < 7 / 10 := h
        rw [decide_eq_true hd]
        exact Bool.true_or _
    have hcond : ((analyzePOST t0).isUncertain
        || (numTruthy (analyzePOST t0).confidence
            && decide ((analyzePOST t0).confidence < 7 / 10))) = true := by
      rw [hu]
      exact Bool.true_or _
    simp only [dashStep]
    rw [if_pos hm]
    exact handleAnalysisOk_log_uncertain _ _ hcond
  · intro s i r hm hu hge ht
    simp only [dashStep]
    rw [if_pos hm, handleAnalysisOk_confident r _ hu hge ht]
    exact ⟨rfl, rfl, rfl⟩
  · intro s i r hm hq
    have h1 : numTruthy r.confidence = true := by
      unfold numTruthy
      rw [hq]
      norm_num
    have h2 : decide (r.confidence < 7 / 10) = true := by
      rw [hq]
      norm_num
    have hcond : (r.isUncertain || (numTruthy r.confidence && decide (r.confidence < 7 / 10))) = true := by
      rw [h1, h2]
      simp
    simp only [dashStep]
    rw [if_pos hm]
    exact handleAnalysisOk_log_uncertain _ _ hcond

/-- C3 (amended): the 3-second warning, 5-second warning and 3-second laugh
auto-reset timers reset the state to `idle` unconditionally at fire time and
can therefore overwrite a state entered by a later transition; only the
10-second speaking safety net is guarded — it is armed only while the state
is still `speaking` (initially disarmed, and every step preserves this), and
firing it yields `idle`. -/
theorem autoreset_timers_unconditional_safety_net_guarded :
    (∀ (s : Dash) (i : Nat), i < s.timers.length →
        (dashStep s (Ev.fireTimer i)).aiState = AIState.idle) ∧
    (∀ recog synth : Bool, SafetyInv (dashInit recog synth)) ∧
    (∀ (s : Dash) (e : Ev), SafetyInv s → SafetyInv (dashStep s e)) ∧
    (∀ s : Dash, s.safetyNet = true →
        (dashStep s Ev.fireSafetyNet).aiState = AIState.idle) := by
  refine ⟨?_, ?_, fun s e h => dashStep_safetyInv s e h, ?_⟩
  · intro s i h
    simp only [dashStep]
    rw [if_pos h]
    rfl
  · intro recog synth hs
    simp [dashInit] at hs
  · intro s h
    simp only [dashStep]
    rw [if_pos h]
    rfl

/-- C3 (counterexample): the 3-second warning timer scheduled by an
empty-input submission fires unconditionally — after a valid submission has
meanwhile moved the machine to `thinking`, the timer still resets it to
`idle`, overwriting the state entered by the later transition. -/
theorem warning_timer_overwrites_thinking :
    (dashStep (dashInit true true) Ev.analyzeClick).aiState = AIState.warning ∧
    (dashStep (dashInit true true) Ev.analyzeClick).timers = [3000] ∧
    (([Ev.analyzeClick, Ev.setInput "milk", Ev.analyzeClick] : List Ev).foldl dashStep
        (dashInit true true)).aiState = AIState.thinking ∧
    (([Ev.analyzeClick, Ev.setInput "milk", Ev.analyzeClick] : List Ev).foldl dashStep
        (dashInit true true)).timers = [3000] ∧
    (dashStep (([Ev.analyzeClick, Ev.setInput "milk", Ev.analyzeClick] : List Ev).foldl dashStep
        (dashInit true true)) (Ev.fireTimer 0)).aiState = AIState.idle := by
  with_unfolding_all decide

/-- C1 (counterexample): two analyses complete in sequence, each starting a
playback, so two playbacks are in flight; playback 0 is superseded by
playback 1, yet delivering playback 0's `onended` still changes
`AssistantState` from `speaking` to `idle`. -/
theorem stale_playback_completion_changes_state :
    (([Ev.setInput "milk", Ev.analyzeClick,
        Ev.analysisOk 0 (AnalysisResp.mk "first answer" 1 false),
        Ev.speakFetch 0 SpeakOutcome.audioReady, Ev.analyzeClick,
        Ev.analysisOk 1 (AnalysisResp.mk "second answer" 1 false),
        Ev.speakFetch 1 SpeakOutcome.audioReady] : List Ev).foldl dashStep
        (dashInit true true)).pendingAudios = [0, 1] ∧
    (([Ev.setInput "milk", Ev.analyzeClick,
        Ev.analysisOk 0 (AnalysisResp.mk "first answer" 1 false),
        Ev.speakFetch 0 SpeakOutcome.audioReady, Ev.analyzeClick,
        Ev.analysisOk 1 (AnalysisResp.mk "second answer" 1 false),
        Ev.speakFetch 1 SpeakOutcome.audioReady] : List Ev).foldl dashStep
        (dashInit true true)).aiState = AIState.speaking ∧
    (dashStep (([Ev.setInput "milk", Ev.analyzeClick,
        Ev.analysisOk 0 (AnalysisResp.mk "first answer" 1 false),
        Ev.speakFetch 0 SpeakOutcome.audioReady, Ev.analyzeClick,
        Ev.analysisOk 1 (AnalysisResp.mk "second answer" 1 false),
        Ev.speakFetch 1 SpeakOutcome.audioReady] : List Ev).foldl dashStep
        (dashInit true true)) (Ev.audioEnded 0)).aiState = AIState.idle := by
  with_unfolding_all decide

/-- Witness for C1 (amended), at the concrete two-playback trace. -/
theorem completions_applied_without_staleness_check_witness :
    (dashStep (([Ev.setInput "milk", Ev.analyzeClick,
        Ev.analysisOk 0 (AnalysisResp.mk "first answer" 1 false),
        Ev.speakFetch 0 SpeakOutcome.audioReady, Ev.analyzeClick,
        Ev.analysisOk 1 (AnalysisResp.mk "second answer" 1 false),
        Ev.speakFetch 1 SpeakOutcome.audioReady] : List Ev).foldl dashStep
        (dashInit true true)) (Ev.audioEnded 0)).aiState = AIState.idle ∧
    (dashStep (([Ev.setInput "milk", Ev.analyzeClick,
        Ev.analysisOk 0 (AnalysisResp.mk "first answer" 1 false),
        Ev.speakFetch 0 SpeakOutcome.audioReady, Ev.analyzeClick] : List Ev).foldl dashStep
        (dashInit true true))
      (Ev.analysisOk 1 (AnalysisResp.mk "second answer" 1 false))).aiState = AIState.speaking :=
  ⟨completions_applied_without_staleness_check.1 _ 0 (by with_unfolding_all decide),
   completions_applied_without_staleness_check.2 _ 1 (AnalysisResp.mk "second answer" 1 false)
     (by with_unfolding_all decide) rfl (by with_unfolding_all decide) (by decide)⟩

/-- Witness for C3 (amended), at concrete states with a pending warning
timer and an armed safety net. -/
theorem autoreset_timers_unconditional_safety_net_guarded_witness :
    (dashStep (dashStep (dashInit true true) Ev.analyzeClick) (Ev.fireTimer 0)).aiState
        = AIState.idle ∧
    SafetyInv (dashInit true true) ∧
    SafetyInv (dashStep (dashInit true true) Ev.analyzeClick) ∧
    (dashStep (([Ev.setInput "milk", Ev.analyzeClick,
        Ev.analysisOk 0 (AnalysisResp.mk "ok" 1 false)] : List Ev).foldl dashStep
        (dashInit true true)) Ev.fireSafetyNet).aiState = AIState.idle :=
  ⟨autoreset_timers_unconditional_safety_net_guarded.1 _ 0 (by with_unfolding_all decide),
   autoreset_timers_unconditional_safety_net_guarded.2.1 true true,
   autoreset_timers_unconditional_safety_net_guarded.2.2.1 _ Ev.analyzeClick
     (autoreset_timers_unconditional_safety_net_guarded.2.1 true true),
   autoreset_timers_unconditional_safety_net_guarded.2.2.2 _ (by with_unfolding_all decide)⟩

/-- Witness for C4, at a concrete pending analysis and three concrete
responses (an uncertain one, a confident one, and one with confidence 0.5). -/
theorem uncertain_response_enters_unsure_first_witness :
    (∃ rest, (dashStep (([Ev.setInput "milk", Ev.analyzeClick] : List Ev).foldl dashStep
        (dashInit true true)) (Ev.analysisOk 0 (analyzePOST "maybe might possibly"))).stateLog
          = (([Ev.setInput "milk", Ev.analyzeClick] : List Ev).foldl dashStep
              (dashInit true true)).stateLog ++ (AIState.unsure :: rest)) ∧
    (dashStep (([Ev.setInput "milk", Ev.analyzeClick] : List Ev).foldl dashStep
        (dashInit true true)) (Ev.analysisOk 0 (AnalysisResp.mk "all good" 1 false))).stateLog
        = (([Ev.setInput "milk", Ev.analyzeClick] : List Ev).foldl dashStep
            (dashInit true true)).stateLog ++ [AIState.speaking] ∧
    (∃ rest, (dashStep (([Ev.setInput "milk", Ev.analyzeClick] : List Ev).foldl dashStep
        (dashInit true true)) (Ev.analysisOk 0 (AnalysisResp.mk "hmm" (1 / 2) false))).stateLog
          = (([Ev.setInput "milk", Ev.analyzeClick] : List Ev).foldl dashStep
              (dashInit true true)).stateLog ++ (AIState.unsure :: rest)) :=
  ⟨uncertain_response_enters_unsure_first.1 _ 0 "maybe might possibly"
      (by with_unfolding_all decide) (Or.inl (by with_unfolding_all decide)),
   (uncertain_response_enters_unsure_first.2.1 _ 0 (AnalysisResp.mk "all good" 1 false)
      (by with_unfolding_all decide) rfl (by with_unfolding_all decide) (by decide)).1,
   uncertain_response_enters_unsure_first.2.2 _ 0 (AnalysisResp.mk "hmm" (1 / 2) false)
      (by with_unfolding_all decide) rfl⟩

/-- Witness for C5, at the freshly loaded page (empty input). -/
theorem empty_submission_warns_without_request_witness :
    (dashStep (dashInit true true) Ev.analyzeClick).pendingAnalyses
        = (dashInit true true).pendingAnalyses ∧
    (dashStep (dashInit true true) Ev.analyzeClick).nextAnalysisId
        = (dashInit true true).nextAnalysisId ∧
    (dashStep (dashInit true true) Ev.analyzeClick).analyzing
        = (dashInit true true).analyzing ∧
    (dashStep (dashInit true true) Ev.analyzeClick).aiState = AIState.warning ∧
    (dashStep (dashInit true true) Ev.analyzeClick).analysisError
        = "Please enter ingredients to analyze" ∧
    (dashStep (dashInit true true) Ev.analyzeClick).timers
        = (dashInit true true).timers ++ [3000] ∧
    (dashStep (dashStep (dashInit true true) Ev.analyzeClick)
        (Ev.fireTimer (dashInit true true).timers.length)).aiState = AIState.idle :=
  empty_submission_warns_without_request (dashInit true true) (by decide)

/-- Witness for C6, at a concrete pending synthesis request answered by a
401 fallback signal. -/
theorem fallback_signal_invokes_local_tts_silently_witness :
    (dashStep (([Ev.setInput "milk", Ev.analyzeClick,
        Ev.analysisOk 0 (AnalysisResp.mk "all good" 1 false)] : List Ev).foldl dashStep
        (dashInit true true)) (Ev.speakFetch 0 (SpeakOutcome.httpFail true none 401))).browserTTSCalls
        = (([Ev.setInput "milk", Ev.analyzeClick,
            Ev.analysisOk 0 (AnalysisResp.mk "all good" 1 false)] : List Ev).foldl dashStep
            (dashInit true true)).browserTTSCalls ++ ["all good"] ∧
    (dashStep (([Ev.setInput "milk", Ev.analyzeClick,
        Ev.analysisOk 0 (AnalysisResp.mk "all good" 1 false)] : List Ev).foldl dashStep
        (dashInit true true)) (Ev.speakFetch 0 (SpeakOutcome.httpFail true none 401))).analysisError
        = (([Ev.setInput "milk", Ev.analyzeClick,
            Ev.analysisOk 0 (AnalysisResp.mk "all good" 1 false)] : List Ev).foldl dashStep
            (dashInit true true)).analysisError ∧
    (dashStep (([Ev.setInput "milk", Ev.analyzeClick,
        Ev.analysisOk 0 (AnalysisResp.mk "all good" 1 false)] : List Ev).foldl dashStep
        (dashInit true true)) (Ev.speakFetch 0 (SpeakOutcome.httpFail true none 401))).aiState
        = AIState.speaking ∧
    (dashStep (([Ev.setInput "milk", Ev.analyzeClick,
        Ev.analysisOk 0 (AnalysisResp.mk "all good" 1 false)] : List Ev).foldl dashStep
        (dashInit true true)) (Ev.speakFetch 0 (SpeakOutcome.httpFail true none 401))).pendingUtters
        = [(([Ev.setInput "milk", Ev.analyzeClick,
            Ev.analysisOk 0 (AnalysisResp.mk "all good" 1 false)] : List Ev).foldl dashStep
            (dashInit true true)).nextUtterId] ∧
    (dashStep (dashStep (([Ev.setInput "milk", Ev.analyzeClick,
        Ev.analysisOk 0 (AnalysisResp.mk "all good" 1 false)] : List Ev).foldl dashStep
        (dashInit true true)) (Ev.speakFetch 0 (SpeakOutcome.httpFail true none 401)))
        (Ev.utterEnded (([Ev.setInput "milk", Ev.analyzeClick,
            Ev.analysisOk 0 (AnalysisResp.mk "all good" 1 false)] : List Ev).foldl dashStep
            (dashInit true true)).nextUtterId)).aiState = AIState.idle ∧
    (dashStep (dashStep (([Ev.setInput "milk", Ev.analyzeClick,
        Ev.analysisOk 0 (AnalysisResp.mk "all good" 1 false)] : List Ev).foldl dashStep
        (dashInit true true)) (Ev.speakFetch 0 (SpeakOutcome.httpFail true none 401)))
        (Ev.utterEnded (([Ev.setInput "milk", Ev.analyzeClick,
            Ev.analysisOk 0 (AnalysisResp.mk "all good" 1 false)] : List Ev).foldl dashStep
            (dashInit true true)).nextUtterId)).analysisError
        = (([Ev.setInput "milk", Ev.analyzeClick,
            Ev.analysisOk 0 (AnalysisResp.mk "all good" 1 false)] : List Ev).foldl dashStep
            (dashInit true true)).analysisError :=
  fallback_signal_invokes_local_tts_silently _ 0 "all good" none 401
    (by with_unfolding_all decide) (by with_unfolding_all decide)

/-- Witness for C7, at the freshly loaded page with an initialized engine:
one granted probe and one denied probe. -/
theorem mic_probe_release_order_and_denial_witness :
    ((dashStep (dashInit true true) (Ev.startListening (MicProbe.granted none))).recActions
        = (dashInit true true).recActions ++ [RecAction.stopTracks, RecAction.recogStart] ∧
     (dashStep (dashInit true true) (Ev.startListening (MicProbe.granted none))).aiState
        = AIState.listening) ∧
    ((dashStep (dashInit true true)
        (Ev.startListening (MicProbe.denied "NotAllowedError" ""))).recActions
        = (dashInit true true).recActions ∧
     (dashStep (dashInit true true)
        (Ev.startListening (MicProbe.denied "NotAllowedError" ""))).micError
        = some (classifyMicDenied "NotAllowedError" "") ∧
     classifyMicDenied "NotAllowedError" "" ≠ "" ∧
     (dashStep (dashInit true true)
        (Ev.startListening (MicProbe.denied "NotAllowedError" ""))).aiState = AIState.idle) :=
  ⟨mic_probe_release_order_and_denial.1 (dashInit true true) rfl rfl,
   mic_probe_release_order_and_denial.2 (dashInit true true) "NotAllowedError" "" rfl rfl⟩
